import Mathlib

/-!
Verification of the DUS sign-in plugin (`src/main.py`) against its
natural-language specification.

The Python source is shallowly embedded: strings are Lean `String`
(logically a list of characters, matching Python's code-point strings),
Python dictionaries are association lists with unique keys, Python `float`
arithmetic is modelled over `ℚ` (real-valued semantics), and the single
random draw of `random.uniform(-offset, offset)` is passed in as an
explicit argument constrained to the closed interval.  HTTP interactions
are modelled by passing the response (status code and body) as data.
-/

namespace DusSignin

/-- Result of one check-in attempt: the `{"success": ..., "message": ...}`
dictionaries produced by `_perform_signin` / `_execute_signin`. -/
structure CheckinResult where
  success : Bool
  message : String
  deriving Repr, DecidableEq

/-- Python's `needle in hay` substring test on lists of characters:
`true` iff `needle` occurs as a contiguous sublist of `hay`. -/
def isSubChars (needle : List Char) : List Char → Bool
  | [] => needle.isEmpty
  | c :: t => needle.isPrefixOf (c :: t) || isSubChars needle t

/-- Python's `needle in hay` on strings. -/
def hasSub (hay needle : String) : Bool :=
  isSubChars needle.data hay.data

/-- Python slice `s[:n]`: the first `n` characters of `s`. -/
def takeStr (s : String) (n : Nat) : String :=
  String.mk (s.data.take n)

/-- The response-body classification of `_execute_signin`
(src/main.py lines 554-587): the empty body is handled first, then the
marker substrings are tested in the source's fixed order. -/
def classifyResponse (content : String) : CheckinResult :=
  if content = "" then ⟨false, "签到响应为空"⟩
  else if hasSub content "签到成功" then ⟨true, "签到成功"⟩
  else if hasSub content "已签到" then ⟨true, "已经签到"⟩
  else if hasSub content "签到失败" then ⟨false, "签到失败"⟩
  else if hasSub content "距离过远" || hasSub content "位置不符" then ⟨false, "签到位置距离过远"⟩
  else if hasSub content "时间不符" || hasSub content "非签到时间" then ⟨false, "不在签到时间范围内"⟩
  else if hasSub content "任务不存在" || hasSub content "无效任务" then ⟨false, "签到任务无效或不存在"⟩
  else ⟨false, "签到状态未知: " ++ takeStr content 100⟩

/-- None of the six marker groups of `_execute_signin` occurs in `content`. -/
def noKnownMarker (content : String) : Prop :=
  hasSub content "签到成功" = false ∧ hasSub content "已签到" = false ∧
  hasSub content "签到失败" = false ∧ hasSub content "距离过远" = false ∧
  hasSub content "位置不符" = false ∧ hasSub content "时间不符" = false ∧
  hasSub content "非签到时间" = false ∧ hasSub content "任务不存在" = false ∧
  hasSub content "无效任务" = false

theorem take_data_prefix (s : String) (n : Nat) : (takeStr s n).data <+: s.data := by
  simpa [takeStr] using List.take_prefix n s.data

/-- C2: for every non-empty check-in response body, `_execute_signin`
classifies by testing the marker substrings in the source's fixed order —
success, already-checked-in (success with a distinct message), explicit
failure, out-of-range distance, wrong time window, invalid task — and a
body matching none of the markers yields a failure whose message carries a
truncated excerpt (`content[:100]`, a prefix of the body). -/
theorem execute_signin_classification (content : String) (hne : content ≠ "") :
    (hasSub content "签到成功" = true →
      classifyResponse content = ⟨true, "签到成功"⟩) ∧
    (hasSub content "签到成功" = false → hasSub content "已签到" = true →
      classifyResponse content = ⟨true, "已经签到"⟩ ∧ "已经签到" ≠ "签到成功") ∧
    (hasSub content "签到成功" = false → hasSub content "已签到" = false →
      hasSub content "签到失败" = true →
      classifyResponse content = ⟨false, "签到失败"⟩) ∧
    (hasSub content "签到成功" = false → hasSub content "已签到" = false →
      hasSub content "签到失败" = false →
      (hasSub content "距离过远" || hasSub content "位置不符") = true →
      classifyResponse content = ⟨false, "签到位置距离过远"⟩) ∧
    (hasSub content "签到成功" = false → hasSub content "已签到" = false →
      hasSub content "签到失败" = false →
      (hasSub content "距离过远" || hasSub content "位置不符") = false →
      (hasSub content "时间不符" || hasSub content "非签到时间") = true →
      classifyResponse content = ⟨false, "不在签到时间范围内"⟩) ∧
    (hasSub content "签到成功" = false → hasSub content "已签到" = false →
      hasSub content "签到失败" = false →
      (hasSub content "距离过远" || hasSub content "位置不符") = false →
      (hasSub content "时间不符" || hasSub content "非签到时间") = false →
      (hasSub content "任务不存在" || hasSub content "无效任务") = true →
      classifyResponse content = ⟨false, "签到任务无效或不存在"⟩) ∧
    (noKnownMarker content →
      classifyResponse content = ⟨false, "签到状态未知: " ++ takeStr content 100⟩ ∧
      (takeStr content 100).data <+: content.data) := by
  refine ⟨?_, ?_, ?_, ?_, ?_, ?_, ?_⟩
  · intro h1
    simp [classifyResponse, hne, h1]
  · intro h1 h2
    refine ⟨by simp [classifyResponse, hne, h1, h2], by decide⟩
  · intro h1 h2 h3
    simp [classifyResponse, hne, h1, h2, h3]
  · intro h1 h2 h3 h4
    simp only [Bool.or_eq_true] at h4
    simp [classifyResponse, hne, h1, h2, h3]
    rcases h4 with h | h <;> simp [h]
  · intro h1 h2 h3 h4 h5
    simp only [Bool.or_eq_false_iff] at h4
    simp only [Bool.or_eq_true] at h5
    simp [classifyResponse, hne, h1, h2, h3, h4.1, h4.2]
    rcases h5 with h | h <;> simp [h]
  · intro h1 h2 h3 h4 h5 h6
    simp only [Bool.or_eq_false_iff] at h4 h5
    simp only [Bool.or_eq_true] at h6
    simp [classifyResponse, hne, h1, h2, h3, h4.1, h4.2, h5.1, h5.2]
    rcases h6 with h | h <;> simp [h]
  · intro hm
    obtain ⟨m1, m2, m3, m4, m5, m6, m7, m8, m9⟩ := hm
    exact ⟨by simp [classifyResponse, hne, m1, m2, m3, m4, m5, m6, m7, m8, m9],
      take_data_prefix content 100⟩

/-- Witness for C2 at a concrete body containing no known marker. -/
theorem execute_signin_classification_witness :
    ("hello" : String) ≠ "" ∧
    classifyResponse "hello" = ⟨false, "签到状态未知: " ++ takeStr "hello" 100⟩ := by
  refine ⟨by decide, ?_⟩
  exact ((execute_signin_classification "hello" (by decide)).2.2.2.2.2.2
    (by refine ⟨?_, ?_, ?_, ?_, ?_, ?_, ?_, ?_, ?_⟩ <;> decide)).1

/-- C10: the empty response body is handled before any substring
classification: it yields the distinct failure `签到响应为空`, not the
"unknown status" result with a body excerpt. -/
theorem execute_signin_empty_body :
    classifyResponse "" = ⟨false, "签到响应为空"⟩ ∧
    classifyResponse "" ≠ ⟨false, "签到状态未知: " ++ takeStr "" 100⟩ := by
  constructor
  · rfl
  · decide

/-! ## Coordinate jitter (`_apply_offset`, src/main.py lines 511-521) -/

/-- Numeric value of a list of decimal digit characters. -/
def digitsVal (ds : List Char) : Nat :=
  ds.foldl (fun a c => 10 * a + (c.toNat - 48)) 0

/-- Optional exponent suffix of a Python float literal (after `e`/`E`):
an optional sign and a non-empty run of digits ending the string. -/
def parseExpPart (mant : ℚ) (cs : List Char) : Option ℚ :=
  let (neg, cs1) :=
    match cs with
    | '-' :: t => (true, t)
    | '+' :: t => (false, t)
    | _ => (false, cs)
  let ds := cs1.takeWhile Char.isDigit
  if ds.isEmpty || !(cs1.drop ds.length).isEmpty then none
  else some (if neg then mant / 10 ^ digitsVal ds else mant * 10 ^ digitsVal ds)

/-- Unsigned part of a Python float literal: digits with an optional
decimal point (at least one digit overall) and an optional exponent. -/
def parseUnsignedFloat (cs : List Char) : Option ℚ :=
  let ip := cs.takeWhile Char.isDigit
  let r1 := cs.drop ip.length
  let (fp, r2) :=
    match r1 with
    | '.' :: t => (t.takeWhile Char.isDigit, t.drop (t.takeWhile Char.isDigit).length)
    | _ => ([], r1)
  if ip.isEmpty && fp.isEmpty then none
  else
    let mant : ℚ := (digitsVal ip : ℚ) + (digitsVal fp : ℚ) / 10 ^ fp.length
    match r2 with
    | [] => some mant
    | 'e' :: t => parseExpPart mant t
    | 'E' :: t => parseExpPart mant t
    | _ => none

/-- Python's `float(s)` on decimal literals, with an optional leading
sign, decimal point and exponent, valued in `ℚ` (real-valued model of
float arithmetic; surrounding whitespace, `inf`/`nan`, underscores and
non-ASCII digits are not modelled).  `none` models `ValueError`. -/
def parseFloat (s : String) : Option ℚ :=
  match s.data with
  | '-' :: t => (parseUnsignedFloat t).map (fun q => -q)
  | '+' :: t => parseUnsignedFloat t
  | cs => parseUnsignedFloat cs

/-- Decimal-free value rendering standing in for Python's `str` on the
jittered float; it is value-faithful (injective on `ℚ`). -/
def ratStr (q : ℚ) : String :=
  toString q.num ++ "/" ++ toString q.den

/-- `_apply_offset`: the random draw `random.uniform(-offset, offset)` is
passed in explicitly as `draw`.  On parse failure the coordinate string is
returned unchanged; on success the string form of `coord + draw` is
returned. -/
def apply_offset (coordinate : String) (draw : ℚ) : String :=
  match parseFloat coordinate with
  | some coord_float => ratStr (coord_float + draw)
  | none => coordinate

/-- Numeric value carried by `_apply_offset`'s result when the coordinate
parses: the parsed value plus the random draw. -/
def apply_offset_val (coordinate : String) (draw : ℚ) : Option ℚ :=
  (parseFloat coordinate).map (fun coord_float => coord_float + draw)

/-- C4: the jitter function is total (never raises): a coordinate that
fails to parse is returned unchanged, and a coordinate parsing to `v`
yields the string form of `v + draw`, whose numeric value lies within
`[v - offset, v + offset]` whenever the uniform draw lies in the closed
interval `[-offset, offset]`. -/
theorem apply_offset_spec (coordinate : String) (offset draw v : ℚ)
    (hlo : -offset ≤ draw) (hhi : draw ≤ offset) :
    (parseFloat coordinate = none → apply_offset coordinate draw = coordinate) ∧
    (parseFloat coordinate = some v →
      apply_offset coordinate draw = ratStr (v + draw) ∧
      ∃ w, apply_offset_val coordinate draw = some w ∧
        v - offset ≤ w ∧ w ≤ v + offset) := by
  constructor
  · intro h
    simp [apply_offset, h]
  · intro h
    refine ⟨by simp [apply_offset, h], v + draw, by simp [apply_offset_val, h], ?_, ?_⟩
    · linarith
    · linarith

theorem parseFloat_399div10 : parseFloat "39.9" = some (399/10) := by
  have h1 : digitsVal "39".data = 39 := by decide
  have h2 : digitsVal "9".data = 9 := by decide
  have hp : parseFloat "39.9" =
      some ((digitsVal "39".data : ℚ) + (digitsVal "9".data : ℚ) / 10 ^ 1) := rfl
  rw [h1, h2] at hp
  rw [hp]
  exact congrArg some (by push_cast; norm_num)

/-- Witness for C4: `"39.9"` parses to `399/10`; with `offset = 1/1000`
and `draw = 1/2000` the jittered value stays in the band. -/
theorem apply_offset_spec_witness :
    -(1/1000 : ℚ) ≤ 1/2000 ∧ (1/2000 : ℚ) ≤ 1/1000 ∧
    parseFloat "39.9" = some (399/10) ∧
    (apply_offset "39.9" (1/2000) = ratStr (399/10 + 1/2000) ∧
      ∃ w, apply_offset_val "39.9" (1/2000) = some w ∧
        399/10 - 1/1000 ≤ w ∧ w ≤ 399/10 + 1/1000) := by
  refine ⟨by norm_num, by norm_num, parseFloat_399div10, ?_⟩
  exact (apply_offset_spec "39.9" (1/1000) (1/2000) (399/10)
    (by norm_num) (by norm_num)).2 parseFloat_399div10

/-- C5: with jitter radius 0 the uniform draw from `[-0, 0]` is 0, so a
coordinate that parses to `v` keeps the numeric value `v` unchanged. -/
theorem apply_offset_radius_zero (coordinate : String) (draw v : ℚ)
    (hlo : -(0:ℚ) ≤ draw) (hhi : draw ≤ 0)
    (hp : parseFloat coordinate = some v) :
    apply_offset_val coordinate draw = some v ∧
    apply_offset coordinate draw = ratStr v := by
  have hd : draw = 0 := le_antisymm hhi (by simpa using hlo)
  subst hd
  constructor
  · simp [apply_offset_val, hp]
  · simp [apply_offset, hp]

/-- Witness for C5 at the concrete coordinate `"39.9"`. -/
theorem apply_offset_radius_zero_witness :
    -(0:ℚ) ≤ 0 ∧ (0:ℚ) ≤ 0 ∧ parseFloat "39.9" = some (399/10) ∧
    apply_offset_val "39.9" 0 = some (399/10) ∧
    apply_offset "39.9" 0 = ratStr (399/10) := by
  have h := apply_offset_radius_zero "39.9" 0 (399/10) (by norm_num) (by norm_num)
    parseFloat_399div10
  exact ⟨by norm_num, by norm_num, parseFloat_399div10, h.1, h.2⟩

/-! ## Scheduler next-fire-time computation (`_auto_signin_task`,
src/main.py lines 222-233) -/

/-- A calendar date, as carried by Python's `datetime.date`. -/
structure Date where
  year : Nat
  month : Nat
  day : Nat
  deriving Repr, DecidableEq

/-- Gregorian leap-year rule (as used by Python's `datetime`). -/
def isLeap (y : Nat) : Bool :=
  y % 4 == 0 && (y % 100 != 0 || y % 400 == 0)

/-- Number of days in a month (Python `calendar` semantics). -/
def daysInMonth (y m : Nat) : Nat :=
  if m = 2 then (if isLeap y then 29 else 28)
  else if m = 4 ∨ m = 6 ∨ m = 9 ∨ m = 11 then 30
  else 31

/-- A wall-clock instant: a date plus the time of day in seconds. -/
structure DateTime where
  date : Date
  tod : Nat
  deriving Repr, DecidableEq

/-- `datetime.replace(day=nd)`: validates the new day against the
month's length and raises `ValueError` (`none`) when it is out of
range. -/
def replaceDay (d : Date) (nd : Nat) : Option Date :=
  if 1 ≤ nd ∧ nd ≤ daysInMonth d.year d.month then some ⟨d.year, d.month, nd⟩
  else none

/-- `datetime` comparison (lexicographic on date then time of day). -/
def dtLe (a b : DateTime) : Bool :=
  if a.date.year ≠ b.date.year then decide (a.date.year < b.date.year)
  else if a.date.month ≠ b.date.month then decide (a.date.month < b.date.month)
  else if a.date.day ≠ b.date.day then decide (a.date.day < b.date.day)
  else decide (a.tod ≤ b.tod)

/-- The next-fire-time computation of `_auto_signin_task`:
`next_run = datetime.combine(now.date(), target_time)`, and if
`next_run <= now` then `next_run = next_run.replace(day=next_run.day + 1)`.
`none` models the `ValueError` the `replace` call raises when
`day + 1` exceeds the current month's length. -/
def computeNextRun (now : DateTime) (target : Nat) : Option DateTime :=
  let next_run : DateTime := ⟨now.date, target⟩
  if dtLe next_run now then
    (replaceDay now.date (now.date.day + 1)).map (fun d => ⟨d, target⟩)
  else some next_run

/-- C1: on the last day of a month, once the configured time has passed,
the next-fire-time computation of `_auto_signin_task` raises `ValueError`
(`replace(day=day+1)` is out of range) instead of producing tomorrow at
the configured time; on other dates it behaves as the spec states.
Concretely: at 2025-01-31 09:00 with `auto_time = 08:00` the code fails,
while 2025-01-30 09:00 rolls to 2025-01-31 08:00 and 2025-01-31 07:00
keeps today 08:00. -/
theorem auto_signin_next_run_month_end_bug :
    computeNextRun ⟨⟨2025, 1, 31⟩, 9 * 3600⟩ (8 * 3600) = none ∧
    daysInMonth 2025 1 = 31 ∧
    computeNextRun ⟨⟨2025, 1, 30⟩, 9 * 3600⟩ (8 * 3600) =
      some ⟨⟨2025, 1, 31⟩, 8 * 3600⟩ ∧
    computeNextRun ⟨⟨2025, 1, 31⟩, 7 * 3600⟩ (8 * 3600) =
      some ⟨⟨2025, 1, 31⟩, 8 * 3600⟩ := by
  refine ⟨?_, ?_, ?_, ?_⟩ <;> decide

/-! ## Class-list fetch and Cookie-expiry propagation
(`_get_class_list` lines 356-416, `_perform_signin` lines 307-354,
`manual_signin` lines 890-937) -/

/-- An HTTP response, passed in as data: status code and body text. -/
structure HttpResponse where
  status : Nat
  body : String
  deriving Repr, DecidableEq

/-- The literal scanned for by `re.findall(r'course_id="(\d+)"', content)`. -/
def courseIdMarker : List Char := "course_id=\"".data

/-- `re.findall(r'course_id="(\d+)"', content)`: all digit groups following
a `course_id="` marker and closed by `"`.  The per-position scan coincides
with `findall`'s non-overlapping scan because the marker cannot overlap
itself or a matched digit run. -/
def extractCourseIds : List Char → List String
  | [] => []
  | c :: t =>
    (if courseIdMarker.isPrefixOf (c :: t) then
      let rest := (c :: t).drop courseIdMarker.length
      let ds := rest.takeWhile Char.isDigit
      if !ds.isEmpty && ['"'].isPrefixOf (rest.drop ds.length) then
        [String.mk ds]
      else []
    else []) ++ extractCourseIds t

/-- Python `s.startswith(pre)`. -/
def startsWith (s pre : String) : Bool :=
  pre.data.isPrefixOf s.data

/-- Python `s.split(":", 1)[1]`: everything after the first colon
(callers guard on the colon being present). -/
def afterFirstColon (s : String) : String :=
  String.mk (go s.data)
where
  go : List Char → List Char
    | [] => []
    | ':' :: t => t
    | _ :: t => go t

/-- `_get_class_list` as a function of the home-page response: on 200 the
first extracted class id (`""` when none are found, the fall-through
return), on 403 the raised `COOKIE_EXPIRED:` exception (`Except.error`),
on any other status the fall-through `""`.  The class-name extraction is
omitted: it feeds only log output and the returned name, which no caller
branches on. -/
def get_class_list (resp : HttpResponse) : Except String String :=
  if resp.status = 200 then
    match extractCourseIds resp.body.data with
    | [] => .ok ""
    | cid :: _ => .ok cid
  else if resp.status = 403 then
    .error "COOKIE_EXPIRED:Cookie已过期，请重新设置Cookie"
  else .ok ""

/-- The `except` clause of `_perform_signin` (lines 344-354): a raised
exception whose text starts with `COOKIE_EXPIRED:` becomes a failure
carrying the text after the colon; any other exception text `e` becomes
the generic `签到操作异常: e`. -/
def perform_signin_catch (e : String) : CheckinResult :=
  if startsWith e "COOKIE_EXPIRED:" then ⟨false, afterFirstColon e⟩
  else ⟨false, "签到操作异常: " ++ e⟩

/-- The class-resolution stage of `_perform_signin` (lines 307-319 plus
the surrounding `try`/`except`): with an empty cached `class_id` the class
list is fetched; a raised exception is converted by
`perform_signin_catch`, an empty id yields the "no class found" failure,
and otherwise the resolved id is used. -/
def perform_signin_class_stage (class_id : String) (classResp : HttpResponse) :
    Except CheckinResult String :=
  if class_id = "" then
    match get_class_list classResp with
    | .error e => .error (perform_signin_catch e)
    | .ok "" => .error ⟨false, "未找到班级或获取班级列表失败"⟩
    | .ok cid => .ok cid
  else .ok class_id

/-- The class-list fetch that `manual_signin` performs itself
(lines 900-937) when no `class_id` is cached, as a function of the
response: on 200, no class found / exactly one (auto-selected) / several
(the list is surfaced for explicit selection; the listing text is
abbreviated here to the class count, no caller branches on it); on any
non-200 status the fixed reply asking the user to check the Cookie. -/
def manual_class_fetch (resp : HttpResponse) : Except String String :=
  if resp.status = 200 then
    match extractCourseIds resp.body.data with
    | [] => .error "未找到班级"
    | [cid] => .ok cid
    | cids => .error ("找到 " ++ toString cids.length ++ " 个班级")
  else .error "获取班级列表失败，请检查Cookie是否正确"

/-- Counterexample to C3: in the manual `now` flow's own class-list
fetch, a 403 produces the same reply as any other non-200 status (here
500), and that reply does not mention expiry (`过期`) — unlike the
scheduled flow, whose result message is the expiry-specific one. -/
theorem manual_class_list_403_not_expiry_specific :
    manual_class_fetch ⟨403, ""⟩ = .error "获取班级列表失败，请检查Cookie是否正确" ∧
    manual_class_fetch ⟨500, ""⟩ = .error "获取班级列表失败，请检查Cookie是否正确" ∧
    hasSub "获取班级列表失败，请检查Cookie是否正确" "过期" = false ∧
    perform_signin_class_stage "" ⟨403, ""⟩ =
      .error ⟨false, "Cookie已过期，请重新设置Cookie"⟩ ∧
    hasSub "Cookie已过期，请重新设置Cookie" "过期" = true := by
  refine ⟨rfl, rfl, by decide, rfl, by decide⟩

/-- C3 as amended: in the scheduled flow a 403 on the class-list fetch
yields a failure `CheckinResult` with the expiry-specific message
`Cookie已过期，请重新设置Cookie`; in the manual `now` flow's own
class-list fetch, every non-200 status — 403 included — yields the fixed
reply `获取班级列表失败，请检查Cookie是否正确`, which points at the
Cookie but does not distinguish 403 or state expiry. -/
theorem class_list_403_cookie_expiry (body : String) :
    perform_signin_class_stage "" ⟨403, body⟩ =
      .error ⟨false, "Cookie已过期，请重新设置Cookie"⟩ ∧
    (∀ st : Nat, st ≠ 200 →
      manual_class_fetch ⟨st, body⟩ =
        .error "获取班级列表失败，请检查Cookie是否正确") := by
  constructor
  · rfl
  · intro st hst
    simp [manual_class_fetch, hst]

/-- Witness for C3's amended theorem at status 403 with an empty body. -/
theorem class_list_403_cookie_expiry_witness :
    (403 : Nat) ≠ 200 ∧
    perform_signin_class_stage "" ⟨403, ""⟩ =
      .error ⟨false, "Cookie已过期，请重新设置Cookie"⟩ ∧
    manual_class_fetch ⟨403, ""⟩ =
      .error "获取班级列表失败，请检查Cookie是否正确" :=
  ⟨by decide, (class_list_403_cookie_expiry "").1,
    (class_list_403_cookie_expiry "").2 403 (by decide)⟩

/-! ## Notifier (`_send_signin_notification`, src/main.py lines 595-642) -/

/-- An outbound message component (`astrbot` `Comp.At` / `Comp.Plain`). -/
inductive MsgComp where
  | atUser (qq : String)
  | plain (text : String)
  deriving Repr, DecidableEq

/-- Python `dict.get(k, d)` on an association list with unique keys. -/
def dictGetD (m : List (String × String)) (k d : String) : String :=
  match m.find? (fun p => p.1 == k) with
  | some p => p.2
  | none => d

/-- Python `s.lower()` (ASCII model). -/
def lowerStr (s : String) : String :=
  String.mk (s.data.map Char.toLower)

/-- Session-type lookup of `_send_signin_notification` (lines 614-617):
the recorded type, or the legacy inference — `"group"` when the lowered
target contains `"group"` or splitting on `"_"` gives more than one part
(i.e. the target contains an underscore), else `"private"`. -/
def sessionTypeFor (types : List (String × String)) (target : String) : String :=
  let session_type := dictGetD types target ""
  if session_type = "" then
    if hasSub (lowerStr target) "group" || target.data.contains '_' then "group"
    else "private"
  else session_type

/-- The message chain built for one target (lines 622-632): in a group
the user is mentioned then the text follows; in a private chat the text
is sent plain. -/
def buildChain (session_type user_id message : String) : List MsgComp :=
  if session_type = "group" then
    [.atUser user_id, .plain (" 自动签到结果: " ++ message)]
  else
    [.plain ("自动签到结果: " ++ message)]

/-- `_send_signin_notification`: one pass over the `(target, level)`
pairs.  `never` is skipped; `failure_only` is skipped on success;
otherwise a chain is built and delivery attempted.  `deliverOk target`
models whether `context.send_message` raises for that target; the
per-target `try`/`except` means the loop continues either way, so each
attempted target is recorded with its chain and delivery outcome. -/
def send_signin_notification (types : List (String × String)) (result : CheckinResult)
    (user_id : String) (deliverOk : String → Bool) :
    List (String × String) → List (String × List MsgComp × Bool)
  | [] => []
  | (target, level) :: rest =>
    if level == "never" then
      send_signin_notification types result user_id deliverOk rest
    else if level == "failure_only" && result.success then
      send_signin_notification types result user_id deliverOk rest
    else
      (target, buildChain (sessionTypeFor types target) user_id result.message,
        deliverOk target) ::
        send_signin_notification types result user_id deliverOk rest

/-- Eligibility of a `(target, level)` pair to receive a notification. -/
def notifEligible (result : CheckinResult) (p : String × String) : Bool :=
  !(p.2 == "never") && !(p.2 == "failure_only" && result.success)

theorem send_signin_notification_eq_filter_map (types : List (String × String))
    (result : CheckinResult) (user_id : String) (deliverOk : String → Bool)
    (targets : List (String × String)) :
    send_signin_notification types result user_id deliverOk targets =
      (targets.filter (notifEligible result)).map
        (fun p => (p.1, buildChain (sessionTypeFor types p.1) user_id result.message,
          deliverOk p.1)) := by
  induction targets with
  | nil => rfl
  | cons hd tl ih =>
    obtain ⟨target, level⟩ := hd
    rw [List.filter_cons]
    cases hb1 : (level == "never") with
    | true =>
      have he : notifEligible result (target, level) = false := by
        simp [notifEligible, hb1]
      rw [if_neg (by simp [he]), ← ih]
      simp [send_signin_notification, hb1]
    | false =>
      cases hb2 : (level == "failure_only" && result.success) with
      | true =>
        have he : notifEligible result (target, level) = false := by
          simp [notifEligible, hb2]
        rw [if_neg (by simp [he]), ← ih]
        simp [send_signin_notification, hb1, hb2]
      | false =>
        have he : notifEligible result (target, level) = true := by
          simp [notifEligible, hb1, hb2]
        rw [if_pos (by simp [he]), List.map_cons, ← ih]
        simp [send_signin_notification, hb1, hb2]

/-- C6: for every `(target, level)` pair, no message is attempted when
the level is `never`, none when the level is `failure_only` and the
result succeeded; every other pair gets a message chain built and a
delivery attempt — and the set of attempted targets and their chains is
the same for every delivery-outcome function, so one target's delivery
exception never prevents the attempts for the remaining targets. -/
theorem send_signin_notification_policy (targets types : List (String × String))
    (result : CheckinResult) (user_id : String) (deliverOk : String → Bool) :
    (∀ target level, (target, level) ∈ targets → level ≠ "never" →
      ¬(level = "failure_only" ∧ result.success = true) →
      (target, buildChain (sessionTypeFor types target) user_id result.message,
        deliverOk target) ∈
        send_signin_notification types result user_id deliverOk targets) ∧
    (∀ e ∈ send_signin_notification types result user_id deliverOk targets,
      ∃ level, (e.1, level) ∈ targets ∧ level ≠ "never" ∧
        ¬(level = "failure_only" ∧ result.success = true)) ∧
    (∀ d2 : String → Bool,
      (send_signin_notification types result user_id deliverOk targets).map
          (fun e => (e.1, e.2.1)) =
        (send_signin_notification types result user_id d2 targets).map
          (fun e => (e.1, e.2.1))) := by
  refine ⟨?_, ?_, ?_⟩
  · intro target level hmem hne hfo
    rw [send_signin_notification_eq_filter_map]
    refine List.mem_map.mpr ⟨(target, level), List.mem_filter.mpr ⟨hmem, ?_⟩, rfl⟩
    simp only [notifEligible, Bool.and_eq_true, Bool.not_eq_true', beq_eq_false_iff_ne,
      ne_eq, Bool.and_eq_false_iff, beq_iff_eq]
    refine ⟨hne, ?_⟩
    by_cases hl : level = "failure_only"
    · right
      rcases Bool.eq_false_or_eq_true result.success with h | h
      · exact absurd ⟨hl, h⟩ hfo
      · exact h
    · exact Or.inl hl
  · intro e he
    rw [send_signin_notification_eq_filter_map] at he
    obtain ⟨p, hp, rfl⟩ := List.mem_map.mp he
    obtain ⟨hmem, hcond⟩ := List.mem_filter.mp hp
    simp only [notifEligible, Bool.and_eq_true, Bool.not_eq_true', beq_eq_false_iff_ne,
      ne_eq, Bool.and_eq_false_iff, beq_iff_eq] at hcond
    refine ⟨p.2, by simpa using hmem, hcond.1, ?_⟩
    rintro ⟨hl, hs⟩
    rcases hcond.2 with h | h
    · exact h hl
    · rw [hs] at h
      exact absurd h (by decide)
  · intro d2
    rw [send_signin_notification_eq_filter_map, send_signin_notification_eq_filter_map,
      List.map_map, List.map_map]
    rfl

/-- Witness for C6: a two-target configuration where the first target's
delivery raises and the second is `failure_only` on a failed result —
both are still attempted. -/
theorem send_signin_notification_policy_witness :
    ("tgt_b", "failure_only") ∈ [("private:a", "always"), ("tgt_b", "failure_only")] ∧
    ("failure_only" : String) ≠ "never" ∧
    ¬(("failure_only" : String) = "failure_only" ∧
      (CheckinResult.mk false "签到失败").success = true) ∧
    ("tgt_b",
      buildChain (sessionTypeFor [] "tgt_b") "u1" "签到失败",
      (fun t => !(t == "private:a")) "tgt_b") ∈
      send_signin_notification [] ⟨false, "签到失败"⟩ "u1"
        (fun t => !(t == "private:a"))
        [("private:a", "always"), ("tgt_b", "failure_only")] := by
  refine ⟨by decide, by decide, by decide, ?_⟩
  exact (send_signin_notification_policy
    [("private:a", "always"), ("tgt_b", "failure_only")] [] ⟨false, "签到失败"⟩ "u1"
    (fun t => !(t == "private:a"))).1 "tgt_b" "failure_only"
    (by decide) (by decide) (by decide)

/-! ## Settings store: persisted records, legacy migration and the
configuration commands (`_load_user_configs` lines 106-125,
`set_config` lines 649-850) -/

/-- The notification-related portion of one persisted user record, with
`Option` marking key presence in the JSON object.  The remaining fields
(`cookie`, `lat`, ... ) pass through `SigninConfig(**config_data)`
untouched and play no part in the migration logic. -/
structure RawConfig where
  notification_level : Option String := none
  notification_target : Option String := none
  notification_targets : Option (List (String × String)) := none
  notification_types : Option (List (String × String)) := none
  deriving Repr, DecidableEq

/-- The legacy-schema migration of `_load_user_configs` (lines 110-115):
when both old keys are present they are popped, and the new mapping gets
`{old_target: old_level}` — unless the old target is falsy (the empty
string), in which case the mapping is left empty. -/
def migrate_config (raw : RawConfig) : RawConfig :=
  if raw.notification_level.isSome && raw.notification_target.isSome then
    let old_level := raw.notification_level.getD "always"
    let old_target := raw.notification_target.getD ""
    { raw with
      notification_level := none
      notification_target := none
      notification_targets :=
        some (if old_target = "" then [] else [(old_target, old_level)]) }
  else raw

/-- The two notification mappings of the loaded `SigninConfig`
(lines 117-123): after migration, a missing `notification_targets` or
`notification_types` key defaults to the empty mapping. -/
def load_config_maps (raw : RawConfig) :
    List (String × String) × List (String × String) :=
  let r := migrate_config raw
  (r.notification_targets.getD [], r.notification_types.getD [])

/-- Counterexample to C7: a legacy record whose old pair is
`notification_target = ""`, `notification_level = "always"` loads to an
*empty* `notification_targets` mapping, not to the one-entry mapping
`{"": "always"}` the claim promises for every legacy pair. -/
theorem legacy_empty_target_counterexample :
    (load_config_maps ⟨some "always", some "", none, none⟩).1 = [] ∧
    (load_config_maps ⟨some "always", some "", none, none⟩).1 ≠ [("", "always")] := by
  exact ⟨rfl, by decide⟩

/-- C7 as amended: a legacy record carrying the old single
`notification_target`/`notification_level` pair loads to a
`notificationTargets` mapping with exactly that one entry *when the old
target is non-empty* (an empty old target yields the empty mapping), and
missing newer mapping fields default to empty mappings. -/
theorem legacy_migration (lvl tgt : String) (ht : tgt ≠ "") :
    load_config_maps ⟨some lvl, some tgt, none, none⟩ = ([(tgt, lvl)], []) ∧
    load_config_maps ⟨none, none, none, none⟩ = ([], []) := by
  constructor
  · simp [load_config_maps, migrate_config, ht]
  · rfl

/-- Witness for C7's amended theorem at a concrete legacy record. -/
theorem legacy_migration_witness :
    ("some_chat" : String) ≠ "" ∧
    load_config_maps ⟨some "always", some "some_chat", none, none⟩ =
      ([("some_chat", "always")], []) :=
  ⟨by decide, (legacy_migration "always" "some_chat" (by decide)).1⟩

/-- The in-memory `SigninConfig` dataclass (src/main.py lines 14-31),
dictionaries as association lists with unique keys, the float `offset`
valued in `ℚ`. -/
structure SigninConfig where
  cookie : String := ""
  lat : String := ""
  lng : String := ""
  class_id : String := ""
  auto_signin_enabled : Bool := false
  auto_signin_time : String := "08:00"
  notification_targets : List (String × String) := []
  notification_types : List (String × String) := []
  offset : ℚ := 0.00002
  deriving Repr, DecidableEq

/-- `re.match(r'^\d{1,2}:\d{2}$', value)`: one or two digits, a colon,
exactly two digits (`\d` modelled as the ASCII digits). -/
def matchTimeFormat (s : String) : Bool :=
  match s.data with
  | [h1, ':', m1, m2] => h1.isDigit && m1.isDigit && m2.isDigit
  | [h1, h2, ':', m1, m2] => h1.isDigit && h2.isDigit && m1.isDigit && m2.isDigit
  | _ => false

/-- The `auto_time` branch of `set_config` (lines 727-744): on a
format match the time is stored and persisted, otherwise the error is
reported and nothing changes.  Result: (new config, persisted?, reply). -/
def set_auto_time (config : SigninConfig) (value : String) :
    SigninConfig × Bool × String :=
  if matchTimeFormat value then
    ({ config with auto_signin_time := value }, true, "自动签到时间已设置为: " ++ value)
  else (config, false, "时间格式错误，请使用HH:MM格式，例如：08:30")

/-- The `offset` branch of `set_config` (lines 796-814): `float(value)`
raising `ValueError` or a negative value reports an error and changes
nothing; otherwise the offset is stored and persisted (`ratStr` stands in
for Python's `str` in the reply, as in `_apply_offset`). -/
def set_offset (config : SigninConfig) (value : String) :
    SigninConfig × Bool × String :=
  match parseFloat value with
  | some offset_value =>
    if offset_value < 0 then (config, false, "偏移值不能为负数")
    else ({ config with offset := offset_value }, true,
      "GPS偏移已设置为: " ++ ratStr offset_value)
  | none => (config, false, "无效的偏移值，请输入数字")

/-- C8: a `set auto_time` value failing the `^\d{1,2}:\d{2}$` pattern,
and a `set offset` value that does not parse as a float or parses
negative, each report a synchronous error reply and leave the user's
configuration record unchanged and unpersisted. -/
theorem set_config_invalid_input (config : SigninConfig) (value : String) :
    (matchTimeFormat value = false →
      set_auto_time config value =
        (config, false, "时间格式错误，请使用HH:MM格式，例如：08:30")) ∧
    (parseFloat value = none →
      set_offset config value = (config, false, "无效的偏移值，请输入数字")) ∧
    (∀ x : ℚ, parseFloat value = some x → x < 0 →
      set_offset config value = (config, false, "偏移值不能为负数")) := by
  refine ⟨?_, ?_, ?_⟩
  · intro h
    simp [set_auto_time, h]
  · intro h
    simp [set_offset, h]
  · intro x hx hneg
    simp [set_offset, hx, hneg]

theorem parseFloat_neg_one : parseFloat "-1" = some (-1) := by
  have h1 : digitsVal "1".data = 1 := by decide
  have h0 : digitsVal "".data = 0 := by decide
  have hp : parseFloat "-1" =
      some (-((digitsVal "1".data : ℚ) + (digitsVal "".data : ℚ) / 10 ^ 0)) := rfl
  rw [h1, h0] at hp
  rw [hp]
  exact congrArg some (by push_cast; norm_num)

/-- Witness for C8 at the malformed time `"8:3"`, the unparseable offset
`"abc"` and the negative offset `"-1"`, on the default configuration. -/
theorem set_config_invalid_input_witness :
    matchTimeFormat "8:3" = false ∧
    set_auto_time {} "8:3" = ({}, false, "时间格式错误，请使用HH:MM格式，例如：08:30") ∧
    parseFloat "abc" = none ∧
    set_offset {} "abc" = ({}, false, "无效的偏移值，请输入数字") ∧
    parseFloat "-1" = some (-1) ∧ (-1 : ℚ) < 0 ∧
    set_offset {} "-1" = ({}, false, "偏移值不能为负数") := by
  refine ⟨by decide, ?_, rfl, ?_, parseFloat_neg_one, by norm_num, ?_⟩
  · exact (set_config_invalid_input {} "8:3").1 (by decide)
  · exact (set_config_invalid_input {} "abc").2.1 rfl
  · exact (set_config_invalid_input {} "-1").2.2 (-1) parseFloat_neg_one (by norm_num)

/-- Python `d[k] = v` on an association list with unique keys: replace
the existing entry or append a new one. -/
def dictSet (m : List (String × String)) (k v : String) : List (String × String) :=
  match m with
  | [] => [(k, v)]
  | (k', v') :: t => if k' == k then (k, v) :: t else (k', v') :: dictSet t k v

/-- Python `del d[k]` on an association list with unique keys. -/
def dictDel (m : List (String × String)) (k : String) : List (String × String) :=
  m.filter (fun p => !(p.1 == k))

/-- Python `k in d`. -/
def keyIn (m : List (String × String)) (k : String) : Bool :=
  m.any (fun p => p.1 == k)

/-- The `notification` branch of `set_config` (lines 773-794): a valid
level is stored in `notification_targets` and the chat's session type in
`notification_types`, both under the current chat's identifier, then
persisted; an invalid level reports an error and changes nothing. -/
def set_notification (config : SigninConfig) (origin value session_type : String) :
    SigninConfig × Bool × String :=
  if value = "always" ∨ value = "never" ∨ value = "failure_only" then
    ({ config with
        notification_targets := dictSet config.notification_targets origin value
        notification_types := dictSet config.notification_types origin session_type },
      true, "已为当前" ++ session_type ++ "聊天设置通知级别为: " ++ value)
  else (config, false, "通知级别只能是: always/never/failure_only")

/-- The `remove_notification` branch of `set_config` (lines 816-837):
when the current chat has an entry, it is deleted from
`notification_targets`, and from `notification_types` too when present,
then persisted; otherwise nothing changes. -/
def remove_notification (config : SigninConfig) (origin session_type : String) :
    SigninConfig × Bool × String :=
  if keyIn config.notification_targets origin then
    ({ config with
        notification_targets := dictDel config.notification_targets origin
        notification_types :=
          if keyIn config.notification_types origin then
            dictDel config.notification_types origin
          else config.notification_types },
      true, "已移除当前" ++ session_type ++ "聊天的通知设置")
  else (config, false, "当前聊天没有通知设置")

/-- The loaded in-memory record, as far as the two notification mappings
are concerned (`SigninConfig(**config_data)` after migration and
defaulting; the non-notification fields pass through unchanged and do
not interact with the mappings). -/
def load_config (raw : RawConfig) : SigninConfig :=
  { notification_targets := (load_config_maps raw).1
    notification_types := (load_config_maps raw).2 }

/-- `asdict(config)` restricted to the notification fields: a record the
program itself persists never contains the two legacy keys. -/
def save_config_raw (c : SigninConfig) : RawConfig :=
  { notification_target := none
    notification_level := none
    notification_targets := some c.notification_targets
    notification_types := some c.notification_types }

/-- C9's invariant: every key of the addressing-mode mapping
(`notification_types`) is a key of the verbosity mapping
(`notification_targets`). -/
def notifInv (c : SigninConfig) : Prop :=
  ∀ k, keyIn c.notification_types k = true → keyIn c.notification_targets k = true

theorem keyIn_cons (k' v' : String) (t : List (String × String)) (k : String) :
    keyIn ((k', v') :: t) k = (k' == k || keyIn t k) := by
  simp [keyIn]

theorem keyIn_dictSet (m : List (String × String)) (k0 v k : String) :
    keyIn (dictSet m k0 v) k = (k0 == k || keyIn m k) := by
  induction m with
  | nil => simp [dictSet, keyIn]
  | cons hd tl ih =>
    obtain ⟨k', v'⟩ := hd
    by_cases h : (k' == k0) = true
    · have hk : k' = k0 := by simpa using h
      subst hk
      simp only [dictSet, h, if_true, keyIn_cons]
      rw [← Bool.or_assoc, Bool.or_self]
    · have h' : (k' == k0) = false := by simpa using h
      simp only [dictSet, h', Bool.false_eq_true, if_false, keyIn_cons, ih]
      rw [Bool.or_left_comm]

theorem keyIn_dictDel (m : List (String × String)) (k0 k : String) :
    keyIn (dictDel m k0) k = (!(k == k0) && keyIn m k) := by
  induction m with
  | nil => simp [dictDel, keyIn]
  | cons hd tl ih =>
    obtain ⟨k', v'⟩ := hd
    simp only [dictDel, List.filter_cons] at ih ⊢
    by_cases h : (k' == k0) = true
    · simp only [h, Bool.not_true, Bool.false_eq_true, if_false, ih, keyIn_cons]
      by_cases hkk : (k == k0) = true
      · simp [hkk]
      · have hkk' : (k == k0) = false := by simpa using hkk
        have hk'k : (k' == k) = false := by
          have hk : k' = k0 := by simpa using h
          simp only [beq_eq_false_iff_ne] at hkk' ⊢
          rw [hk]
          exact fun hh => hkk' hh.symm
        simp [hkk', hk'k]
    · have h' : (k' == k0) = false := by simpa using h
      simp only [h', Bool.not_false, if_true, keyIn_cons, ih]
      by_cases hkk : (k == k0) = true
      · have hk'k : (k' == k) = false := by
          have hk : k = k0 := by simpa using hkk
          simp only [beq_eq_false_iff_ne] at h' ⊢
          rw [hk]
          exact h'
        simp [hkk, hk'k]
      · have hkk' : (k == k0) = false := by simpa using hkk
        simp [hkk']

/-- C9: the key-subset invariant — every key of `notification_types` is
a key of `notification_targets` — holds for a fresh record, is preserved
by the `notification` command (which writes both mappings together), by
the `remove_notification` command (which deletes from both together), by
the other mutating commands (which do not touch the mappings), and by a
save/load round trip through the persisted format; a freshly loaded
legacy record satisfies it as well. -/
theorem notification_key_invariant :
    notifInv {} ∧
    (∀ c o v s, notifInv c → notifInv (set_notification c o v s).1) ∧
    (∀ c o s, notifInv c → notifInv (remove_notification c o s).1) ∧
    (∀ c v, notifInv c → notifInv (set_auto_time c v).1) ∧
    (∀ c v, notifInv c → notifInv (set_offset c v).1) ∧
    (∀ c, notifInv c → notifInv (load_config (save_config_raw c))) ∧
    (∀ raw : RawConfig, raw.notification_level.isSome = true →
      raw.notification_target.isSome = true → raw.notification_types = none →
      notifInv (load_config raw)) := by
  refine ⟨?_, ?_, ?_, ?_, ?_, ?_, ?_⟩
  · intro k hk
    simp [keyIn] at hk
  · intro c o v s hinv k hk
    by_cases hv : v = "always" ∨ v = "never" ∨ v = "failure_only"
    · simp only [set_notification, if_pos hv] at hk ⊢
      rw [keyIn_dictSet] at hk ⊢
      simp only [Bool.or_eq_true] at hk ⊢
      rcases hk with h | h
      · exact Or.inl h
      · exact Or.inr (hinv k h)
    · simp only [set_notification, if_neg hv] at hk ⊢
      exact hinv k hk
  · intro c o s hinv k hk
    by_cases ho : keyIn c.notification_targets o = true
    · simp only [remove_notification, if_pos ho] at hk ⊢
      by_cases ht : keyIn c.notification_types o = true
      · rw [if_pos ht] at hk
        rw [keyIn_dictDel] at hk ⊢
        simp only [Bool.and_eq_true] at hk ⊢
        exact ⟨hk.1, hinv k hk.2⟩
      · rw [if_neg ht] at hk
        rw [keyIn_dictDel]
        simp only [Bool.and_eq_true]
        have h1 : (k == o) = false := by
          by_cases hko : (k == o) = true
          · have hko' : k = o := by simpa using hko
            rw [hko'] at hk
            exact absurd hk ht
          · simpa using hko
        exact ⟨by simp [h1], hinv k hk⟩
    · simp only [remove_notification, if_neg ho] at hk ⊢
      exact hinv k hk
  · intro c v hinv k hk
    by_cases h : matchTimeFormat v = true
    · simpa [set_auto_time, h] using hinv k (by simpa [set_auto_time, h] using hk)
    · have h' : matchTimeFormat v = false := by simpa using h
      simpa [set_auto_time, h'] using hinv k (by simpa [set_auto_time, h'] using hk)
  · intro c v hinv k hk
    rcases hp : parseFloat v with _ | x
    · simpa [set_offset, hp] using hinv k (by simpa [set_offset, hp] using hk)
    · by_cases hx : x < 0
      · simpa [set_offset, hp, hx] using hinv k (by simpa [set_offset, hp, hx] using hk)
      · simpa [set_offset, hp, hx] using hinv k (by simpa [set_offset, hp, hx] using hk)
  · intro c hinv k hk
    simp only [load_config, load_config_maps, save_config_raw, migrate_config] at hk ⊢
    simp at hk ⊢
    exact hinv k hk
  · intro raw hl ht htypes k hk
    simp only [load_config, load_config_maps, migrate_config, hl, ht, htypes] at hk
    simp [htypes, Option.isSome_iff_exists] at hk
    obtain ⟨l, hl'⟩ := Option.isSome_iff_exists.mp hl
    obtain ⟨t, ht'⟩ := Option.isSome_iff_exists.mp ht
    simp [hl', ht', keyIn] at hk

/-- Witness for C9 exercising the preservation conjuncts on a concrete
configuration: adding a notification target, then removing it, keeps the
key-subset invariant. -/
theorem notification_key_invariant_witness :
    notifInv ({} : SigninConfig) ∧
    notifInv (set_notification {} "chat1" "always" "group").1 ∧
    notifInv (remove_notification
      (set_notification {} "chat1" "always" "group").1 "chat1" "group").1 := by
  have h0 : notifInv ({} : SigninConfig) := notification_key_invariant.1
  have h1 := notification_key_invariant.2.1 {} "chat1" "always" "group" h0
  have h2 := notification_key_invariant.2.2.1
    (set_notification {} "chat1" "always" "group").1 "chat1" "group" h1
  exact ⟨h0, h1, h2⟩

end DusSignin
